import Mathlib

/-!
Verification of the gcp-visualizer collection-and-persistence pipeline.

The Go source is shallowly embedded: errors become an inductive `GoError`
mirroring the error values the code inspects, the retry engine
(`internal/collector/retry.go`) becomes a structurally recursive function,
the SQLite store (`internal/storage/sqlite.go` plus the schema in
`migrate`) becomes a pure state-passing model of the three tables with
explicit transaction semantics, and the collector loops
(`internal/collector/topics.go`, `internal/collector/subscriptions.go`)
become recursions over an abstract iterator stream.
-/

/-- The gRPC status codes inspected by `isRetryable`
(`google.golang.org/grpc/codes`). -/
inductive GrpcCode
  | OK
  | Canceled
  | Unknown
  | InvalidArgument
  | DeadlineExceeded
  | NotFound
  | PermissionDenied
  | ResourceExhausted
  | Aborted
  | Unavailable
  | Unauthenticated
  | Internal
deriving DecidableEq

/-- Printed name of a gRPC code, as `codes.Code.String()` renders it inside
a status error message. -/
def GrpcCode.codeName : GrpcCode → String
  | .OK => "OK"
  | .Canceled => "Canceled"
  | .Unknown => "Unknown"
  | .InvalidArgument => "InvalidArgument"
  | .DeadlineExceeded => "DeadlineExceeded"
  | .NotFound => "NotFound"
  | .PermissionDenied => "PermissionDenied"
  | .ResourceExhausted => "ResourceExhausted"
  | .Aborted => "Aborted"
  | .Unavailable => "Unavailable"
  | .Unauthenticated => "Unauthenticated"
  | .Internal => "Internal"

/-- Embedding of the Go `error` values that flow through the pipeline:
the two context sentinels, gRPC status errors, `googleapi.Error` values
(HTTP code plus message), plain errors built with `errors.New`/`fmt.Errorf`,
`fmt.Errorf("...: %w", err)` wrapping, the retry engine's
`max retries (%d) exceeded, last error: %w` error (with a separate
constructor for the unreachable nil-last-error shape), and the pool's
`failed to collect %d projects` summary error. -/
inductive GoError
  | contextCanceled
  | contextDeadlineExceeded
  | grpcStatus (code : GrpcCode) (desc : String)
  | googleapi (code : Nat) (msg : String)
  | plain (msg : String)
  | wrap (msg : String) (inner : GoError)
  | maxRetriesExceeded (n : Nat) (last : GoError)
  | maxRetriesNil (n : Nat)
  | collectFailed (n : Nat)
deriving DecidableEq

/-- Rendering of `err.Error()` for each embedded error shape. -/
def GoError.message : GoError → String
  | .contextCanceled => "context canceled"
  | .contextDeadlineExceeded => "context deadline exceeded"
  | .grpcStatus c d => "rpc error: code = " ++ c.codeName ++ " desc = " ++ d
  | .googleapi c m => "googleapi: Error " ++ toString c ++ ": " ++ m
  | .plain m => m
  | .wrap m e => m ++ ": " ++ e.message
  | .maxRetriesExceeded n e =>
      "max retries (" ++ toString n ++ ") exceeded, last error: " ++ e.message
  | .maxRetriesNil n => "max retries (" ++ toString n ++ ") exceeded, last error: <nil>"
  | .collectFailed n => "failed to collect " ++ toString n ++ " projects"

/-- Model of Go `strings.ToLower` (the messages scanned are ASCII). -/
def strToLower (s : String) : String :=
  ⟨s.toList.map Char.toLower⟩

/-- Splitting pass of `strings.Split s sep` for a one-character separator:
accumulates the current field (reversed) and emits it at each separator. -/
def splitCharsAux (sep : Char) : List Char → List Char → List String
  | [], acc => [⟨acc.reverse⟩]
  | c :: cs, acc =>
    if c = sep then ⟨acc.reverse⟩ :: splitCharsAux sep cs []
    else splitCharsAux sep cs (c :: acc)

/-- Model of Go `strings.Split s sep` for a one-character separator:
`""` yields `[""]`, and `n` separators yield `n + 1` fields. -/
def splitOnChar (sep : Char) (s : String) : List String :=
  splitCharsAux sep s.toList []

/-- Whether the character list `hay` starts with `needle`. -/
def listStartsWith : List Char → List Char → Bool
  | _, [] => true
  | [], _ :: _ => false
  | h :: hs, n :: ns => h == n && listStartsWith hs ns

/-- Whether `needle` occurs as a contiguous run inside `hay`
(the model of `strings.Contains`). -/
def listContainsSub : List Char → List Char → Bool
  | [], needle => needle.isEmpty
  | h :: hs, needle => listStartsWith (h :: hs) needle || listContainsSub hs needle

/-- Model of Go `strings.Contains hay needle`. -/
def containsSubstr (hay needle : String) : Bool :=
  listContainsSub hay.toList needle.toList

/-- The transient-error substrings listed in `isRetryable`. -/
def transientIndicators : List String :=
  ["timeout", "timed out", "deadline", "temporary",
   "connection reset", "connection refused", "broken pipe"]

/-- Whether a (lower-cased) error message contains a transient indicator. -/
def hasTransientIndicator (s : String) : Bool :=
  transientIndicators.any (fun ind => containsSubstr s ind)

/-- Model of `status.FromError`: the gRPC code of the error, unwrapping
through `%w` chains as `errors.As` does; `none` when the chain holds no
status error. -/
def statusCode : GoError → Option GrpcCode
  | .grpcStatus c _ => some c
  | .wrap _ e => statusCode e
  | .maxRetriesExceeded _ e => statusCode e
  | _ => none

/-- Model of the `err.(*googleapi.Error)` type assertion: the HTTP code
when the error itself is a `googleapi.Error` (no unwrapping). -/
def apiCode : GoError → Option Nat
  | .googleapi c _ => some c
  | _ => none

/-- The retry decision the gRPC switch in `isRetryable` takes, `none` when
the code falls through to the later checks. -/
def grpcRetryDecision : GrpcCode → Option Bool
  | .Unavailable => some true
  | .ResourceExhausted => some true
  | .DeadlineExceeded => some true
  | .PermissionDenied => some false
  | .Unauthenticated => some false
  | .NotFound => some false
  | .InvalidArgument => some false
  | _ => none

/-- The retry decision the HTTP switch in `isRetryable` takes. -/
def apiRetryDecision : Nat → Option Bool
  | 429 => some true
  | 502 => some true
  | 503 => some true
  | 504 => some true
  | 400 => some false
  | 401 => some false
  | 403 => some false
  | 404 => some false
  | _ => none

/-- Embedding of `isRetryable` (`internal/collector/retry.go`): nil and the
context sentinels are never retried; then the gRPC status switch, the
`googleapi.Error` switch, and finally the lower-cased-message substring
scan; anything unrecognized is not retried. -/
def isRetryable (err : Option GoError) : Bool :=
  match err with
  | none => false
  | some e =>
    if e = .contextCanceled ∨ e = .contextDeadlineExceeded then false
    else
      match (statusCode e).bind grpcRetryDecision with
      | some b => b
      | none =>
        match (apiCode e).bind apiRetryDecision with
        | some b => b
        | none => hasTransientIndicator (strToLower e.message)

/-- The cancellation environment threaded through the pipeline: whether the
context fires during the backoff sleep that follows attempt `i`, the value
`ctx.Err()` reports once cancelled, and whether `limiter.Wait` fails
(it only fails when the context is dead). -/
structure Ctx where
  cancelledDuringSleep : Nat → Bool
  ctxErr : GoError
  limErr : Option GoError

/-- A context that is never cancelled. -/
def Ctx.live : Ctx :=
  { cancelledDuringSleep := fun _ => false
    ctxErr := .contextCanceled
    limErr := none }

/-- Result of a `retryWithBackoff` run: the returned error (`none` on
success), the state the retried closure left behind, and how many times
the closure was invoked. -/
structure RetrySt (σ : Type) where
  result : Option GoError
  state : σ
  calls : Nat

/-- The fixed attempt budget of `retryWithBackoff`. -/
def maxRetries : Nat := 3

/-- The loop of `retryWithBackoff`, recursing on the number of remaining
attempts (`remaining + i = maxRetries`); the retried closure may carry
state `σ` across attempts (partial saves persist).  On a failed attempt the
error is classified; a non-retryable error returns immediately; on the last
attempt there is no sleep and the loop exit returns the
`max retries exceeded` error wrapping the last error; otherwise the backoff
sleep either completes (backoff doubles) or the context fires and `ctx.Err()`
is returned without invoking the closure again. -/
def retryAux {σ : Type} (ctx : Ctx) (fn : Nat → σ → σ × Option GoError) :
    Nat → Nat → Nat → Option GoError → σ → RetrySt σ
  | 0, _i, _backoff, lastErr, st =>
    match lastErr with
    | some e => ⟨some (.maxRetriesExceeded maxRetries e), st, 0⟩
    | none => ⟨some (.maxRetriesNil maxRetries), st, 0⟩
  | r + 1, i, backoff, _last, st =>
    match fn i st with
    | (st', none) => ⟨none, st', 1⟩
    | (st', some err) =>
      if isRetryable (some err) then
        if r = 0 then
          let rest := retryAux ctx fn r (i + 1) backoff (some err) st'
          ⟨rest.result, rest.state, rest.calls + 1⟩
        else if ctx.cancelledDuringSleep i then
          ⟨some ctx.ctxErr, st', 1⟩
        else
          let rest := retryAux ctx fn r (i + 1) (backoff * 2) (some err) st'
          ⟨rest.result, rest.state, rest.calls + 1⟩
      else ⟨some err, st', 1⟩

/-- Embedding of `retryWithBackoff` for a pure operation: the `i`-th
invocation of the closure yields `fn i` (`none` = success). -/
def retryWithBackoff (ctx : Ctx) (fn : Nat → Option GoError) : RetrySt Unit :=
  retryAux ctx (fun i _ => ((), fn i)) maxRetries 0 1 none ()

example :
    (retryWithBackoff Ctx.live (fun _ => some (.plain "timeout"))).calls = 3 := by
  decide

example :
    (retryWithBackoff Ctx.live (fun _ => some (.plain "timeout"))).result =
      some (.maxRetriesExceeded 3 (.plain "timeout")) := by
  decide

example :
    (retryWithBackoff Ctx.live
      (fun _ => some (.googleapi 403 "permission denied"))).calls = 1 := by
  decide

example :
    (retryWithBackoff Ctx.live (fun _ => none)).calls = 1 := by
  decide

example : isRetryable (some (.grpcStatus .DeadlineExceeded "x")) = true := by decide

example : isRetryable (some .contextDeadlineExceeded) = false := by decide

example : isRetryable (some (.plain "some unknown error")) = false := by decide

example : isRetryable (some (.wrap "failed to iterate topics" (.plain "timeout"))) = true := by
  decide

/-- Scan from the end of the split segments for the first non-empty one,
mirroring the downward loop in `extractResourceName`
(`internal/collector/collector.go`): the input here is the reversed
segment list. -/
def firstNonEmpty : List String → String
  | [] => ""
  | p :: ps => if p ≠ "" then p else firstNonEmpty ps

/-- Embedding of `extractResourceName`
(`internal/collector/collector.go:233`): empty input yields `""`;
otherwise split on `/` and return the last non-empty segment, or `""`
when every segment is empty. -/
def extractResourceName (fullPath : String) : String :=
  if fullPath = "" then ""
  else firstNonEmpty (splitOnChar '/' fullPath).reverse

example : extractResourceName "projects/my-project/topics/my-topic" = "my-topic" := by decide

example : extractResourceName "projects/p/topics/" = "topics" := by decide

/-! ## Resource Store (`internal/storage/sqlite.go`, schema from `migrate`) -/

/-- The `storage.Topic` value passed to `SaveTopic` (the `ID` field is
ignored on insert, so it is omitted from the input model). -/
structure Topic where
  name : String
  projectID : String
  fullResourceName : String
  metadata : String
deriving DecidableEq

/-- The `storage.Subscription` value passed to `SaveSubscription`. -/
structure Subscription where
  name : String
  projectID : String
  topicFullResourceName : String
  fullResourceName : String
  metadata : String
deriving DecidableEq

/-- A row of the `topics` table:
`id INTEGER PRIMARY KEY, name, project_id, full_resource_name UNIQUE,
metadata, last_synced`. -/
structure TopicRow where
  id : Nat
  name : String
  projectID : String
  fullResourceName : String
  metadata : String
  lastSynced : Nat
deriving DecidableEq

/-- A row of the `subscriptions` table. -/
structure SubRow where
  id : Nat
  name : String
  projectID : String
  topicFullResourceName : String
  fullResourceName : String
  metadata : String
  lastSynced : Nat
deriving DecidableEq

/-- The SQLite database state: the `projects` table
(`project_id PRIMARY KEY, last_synced`), the `topics` and `subscriptions`
tables in rowid order, the next rowids to assign, and a logical clock
standing in for `CURRENT_TIMESTAMP`. -/
structure DB where
  projects : List (String × Nat)
  topics : List TopicRow
  subs : List SubRow
  nextTopicId : Nat
  nextSubId : Nat
  now : Nat
deriving DecidableEq

/-- A freshly migrated, empty database. -/
def DB.empty : DB :=
  { projects := [], topics := [], subs := [], nextTopicId := 1, nextSubId := 1, now := 0 }

/-- `INSERT OR REPLACE INTO projects (project_id, last_synced)`: the
conflicting row (same primary key) is deleted and the new row appended. -/
def upsertProject (db : DB) (pid : String) : DB :=
  { db with projects := db.projects.filter (fun r => !(r.1 == pid)) ++ [(pid, db.now)] }

/-- `INSERT OR REPLACE INTO topics (name, project_id, full_resource_name,
metadata, last_synced)`: any row conflicting on the `full_resource_name`
UNIQUE constraint is deleted, and the new row is appended with a fresh
rowid. -/
def upsertTopic (db : DB) (t : Topic) : DB :=
  { db with
    topics :=
      db.topics.filter (fun r => !(r.fullResourceName == t.fullResourceName)) ++
        [⟨db.nextTopicId, t.name, t.projectID, t.fullResourceName, t.metadata, db.now⟩]
    nextTopicId := db.nextTopicId + 1 }

/-- `INSERT OR REPLACE INTO subscriptions (...)`: same replacement
semantics, keyed by the `full_resource_name` UNIQUE constraint. -/
def upsertSub (db : DB) (s : Subscription) : DB :=
  { db with
    subs :=
      db.subs.filter (fun r => !(r.fullResourceName == s.fullResourceName)) ++
        [⟨db.nextSubId, s.name, s.projectID, s.topicFullResourceName,
          s.fullResourceName, s.metadata, db.now⟩]
    nextSubId := db.nextSubId + 1 }

/-- Fault-injection points of one save transaction: `BeginTx`, the two
`ExecContext` statements, and `Commit` may each fail with a storage
error. -/
structure TxFault where
  beginErr : Option GoError
  execProjectErr : Option GoError
  execResourceErr : Option GoError
  commitErr : Option GoError

/-- A fault-free transaction environment. -/
def TxFault.ok : TxFault :=
  { beginErr := none, execProjectErr := none, execResourceErr := none, commitErr := none }

/-- Embedding of `SaveTopic` (`internal/storage/sqlite.go:62`): begin a
transaction, upsert the owning project row, upsert the topic row, commit;
any failure rolls the whole transaction back (an error result leaves the
caller's database untouched), and the commit bumps the clock. -/
def SaveTopic (f : TxFault) (db : DB) (t : Topic) : Except GoError DB :=
  match f.beginErr with
  | some e => .error e
  | none =>
    match f.execProjectErr with
    | some e => .error e
    | none =>
      let tx1 := upsertProject db t.projectID
      match f.execResourceErr with
      | some e => .error e
      | none =>
        let tx2 := upsertTopic tx1 t
        match f.commitErr with
        | some e => .error e
        | none => .ok { tx2 with now := tx2.now + 1 }

/-- Embedding of `SaveSubscription` (`internal/storage/sqlite.go:154`):
same transactional shape as `SaveTopic`. -/
def SaveSubscription (f : TxFault) (db : DB) (s : Subscription) : Except GoError DB :=
  match f.beginErr with
  | some e => .error e
  | none =>
    match f.execProjectErr with
    | some e => .error e
    | none =>
      let tx1 := upsertProject db s.projectID
      match f.execResourceErr with
      | some e => .error e
      | none =>
        let tx2 := upsertSub tx1 s
        match f.commitErr with
        | some e => .error e
        | none => .ok { tx2 with now := tx2.now + 1 }

/-- a `SaveTopic` call as the caller observes it: the returned error and
the database afterwards (a rolled-back transaction leaves it unchanged). -/
def SaveTopicRun (f : TxFault) (db : DB) (t : Topic) : Option GoError × DB :=
  match SaveTopic f db t with
  | .ok db' => (none, db')
  | .error e => (some e, db)

/-- a `SaveSubscription` call as the caller observes it. -/
def SaveSubscriptionRun (f : TxFault) (db : DB) (s : Subscription) : Option GoError × DB :=
  match SaveSubscription f db s with
  | .ok db' => (none, db')
  | .error e => (some e, db)

/-- `GetTopics` (`internal/storage/sqlite.go:95`):
`SELECT ... FROM topics WHERE project_id = ?`. -/
def GetTopics (db : DB) (projectID : String) : List TopicRow :=
  db.topics.filter (fun r => r.projectID == projectID)

/-- `GetSubscriptions` (`internal/storage/sqlite.go:188`). -/
def GetSubscriptions (db : DB) (projectID : String) : List SubRow :=
  db.subs.filter (fun r => r.projectID == projectID)

/-- `GetAllTopics` (`internal/storage/sqlite.go:118`): an empty project
list selects the whole table, otherwise `WHERE project_id IN (...)`. -/
def GetAllTopics (db : DB) (projects : List String) : List TopicRow :=
  if projects.isEmpty then db.topics
  else db.topics.filter (fun r => projects.contains r.projectID)

/-- `GetAllSubscriptions` (`internal/storage/sqlite.go:203`). -/
def GetAllSubscriptions (db : DB) (projects : List String) : List SubRow :=
  if projects.isEmpty then db.subs
  else db.subs.filter (fun r => projects.contains r.projectID)

/-- `GetAllProjects` (`internal/storage/sqlite.go:240`):
`SELECT DISTINCT project_id FROM projects ORDER BY project_id`. -/
def GetAllProjects (db : DB) : List String :=
  ((db.projects.map Prod.fst).dedup.mergeSort (· ≤ ·))

/-- `UpdateProjectSyncTime` (`internal/storage/sqlite.go:261`): a bare
project upsert outside any explicit transaction. -/
def UpdateProjectSyncTime (db : DB) (pid : String) : DB :=
  { upsertProject db pid with now := db.now + 1 }

/-- Whether a `projects` row exists for `pid`. -/
def projectHas (db : DB) (pid : String) : Bool :=
  db.projects.any (fun r => r.1 == pid)

/-- Whether a `topics` row carrying exactly the saved topic's fields
exists. -/
def topicSaved (db : DB) (t : Topic) : Bool :=
  db.topics.any (fun r =>
    r.name == t.name && r.projectID == t.projectID &&
    r.fullResourceName == t.fullResourceName && r.metadata == t.metadata)

/-- Whether a `subscriptions` row carrying exactly the saved
subscription's fields exists. -/
def subSaved (db : DB) (s : Subscription) : Bool :=
  db.subs.any (fun r =>
    r.name == s.name && r.projectID == s.projectID &&
    r.topicFullResourceName == s.topicFullResourceName &&
    r.fullResourceName == s.fullResourceName && r.metadata == s.metadata)

example :
    (SaveTopicRun TxFault.ok DB.empty ⟨"t", "p", "projects/p/topics/t", "\x7b\x7d"⟩).1 =
      none := by decide

example :
    topicSaved (SaveTopicRun TxFault.ok DB.empty ⟨"t", "p", "projects/p/topics/t", "v1"⟩).2
      ⟨"t", "p", "projects/p/topics/t", "v1"⟩ = true := by decide

/-! ## Collector (`internal/collector/topics.go`,
`internal/collector/subscriptions.go`) -/

/-- One message of the paginated `ListSubscriptions` stream: the
subscription's full resource name (`sub.Name`) and the full resource name
of the topic it targets (`sub.Topic`). -/
structure SubMsg where
  name : String
  topic : String
deriving DecidableEq

/-- An abstract Pub/Sub client: `topicsIter k` (resp. `subsIter k`) is the
step sequence the `k`-th freshly created iterator produces — an `.ok`
item per `Next` call, a terminal `.error`, or `iterator.Done` at the end
of the list. -/
structure Client where
  topicsIter : Nat → List (Except GoError String)
  subsIter : Nat → List (Except GoError SubMsg)

/-- The iteration loop of `collectTopics` (`internal/collector/topics.go:15`)
over one iterator: each round first waits on the rate limiter (which fails
only when the context is dead), then takes the next step; an iterator error
returns wrapped as `failed to iterate topics`, an item is upserted into the
store at once (a failed save returns wrapped as `failed to save topic ...`),
and the end of the stream (`iterator.Done`) succeeds.  Items saved before a
failure stay saved. -/
def runTopicsIter (ctx : Ctx) (projectID : String) :
    List (Except GoError String) → DB → DB × Option GoError
  | [], st => (st, none)
  | step :: rest, st =>
    match ctx.limErr with
    | some e => (st, some (.wrap "rate limiter error" e))
    | none =>
      match step with
      | .error e => (st, some (.wrap "failed to iterate topics" e))
      | .ok fullResourceName =>
        let topicName := extractResourceName fullResourceName
        match SaveTopicRun TxFault.ok st
            ⟨topicName, projectID, fullResourceName, "\x7b\x7d"⟩ with
        | (some e, st') => (st', some (.wrap ("failed to save topic " ++ topicName) e))
        | (none, st') => runTopicsIter ctx projectID rest st'

/-- The iteration loop of `collectSubscriptionsOnce`
(`internal/collector/subscriptions.go`), same shape as the topic loop. -/
def runSubsIter (ctx : Ctx) (projectID : String) :
    List (Except GoError SubMsg) → DB → DB × Option GoError
  | [], st => (st, none)
  | step :: rest, st =>
    match ctx.limErr with
    | some e => (st, some (.wrap "rate limiter error" e))
    | none =>
      match step with
      | .error e => (st, some (.wrap "failed to iterate subscriptions" e))
      | .ok sub =>
        let subName := extractResourceName sub.name
        match SaveSubscriptionRun TxFault.ok st
            ⟨subName, projectID, sub.topic, sub.name, "\x7b\x7d"⟩ with
        | (some e, st') => (st', some (.wrap ("failed to save subscription " ++ subName) e))
        | (none, st') => runSubsIter ctx projectID rest st'

/-- Embedding of `collectTopics` (`internal/collector/topics.go:15`): one
iterator is created (`topicsIter 0`) and walked once; there is no retry
around or inside the loop. -/
def collectTopics (ctx : Ctx) (client : Client) (projectID : String) (st : DB) :
    DB × Option GoError :=
  runTopicsIter ctx projectID (client.topicsIter 0) st

/-- Embedding of `collectSubscriptionsOnce`: attempt `k` creates the fresh
iterator `subsIter k` and walks it from the beginning. -/
def collectSubscriptionsOnce (ctx : Ctx) (client : Client) (projectID : String)
    (k : Nat) (st : DB) : DB × Option GoError :=
  runSubsIter ctx projectID (client.subsIter k) st

/-- Embedding of `collectSubscriptions`
(`internal/collector/subscriptions.go`): the whole single-pass collection
is wrapped in `retryWithBackoff`, so each retry attempt starts over with a
freshly created iterator; partial saves persist across attempts. -/
def collectSubscriptions (ctx : Ctx) (client : Client) (projectID : String)
    (st : DB) : RetrySt DB :=
  retryAux ctx (fun k s => collectSubscriptionsOnce ctx client projectID k s)
    maxRetries 0 1 none st

/-- Modelled from the spec: topic listing "wrapped by the Retry Engine such
that any failure during iteration discards the partial page state and
restarts iteration from the beginning on the next attempt" — the retrying
topic collection the specification describes but `collectTopics` does not
implement. -/
def collectTopicsSpec (ctx : Ctx) (client : Client) (projectID : String)
    (st : DB) : RetrySt DB :=
  retryAux ctx (fun k s => runTopicsIter ctx projectID (client.topicsIter k) s)
    maxRetries 0 1 none st

/-! ## Project Pool (`internal/collector/pool.go`) -/

/-- The per-project outcome the pool records: `attempt pid` is the error
the goroutine for `pid` stores in the shared map (already wrapped with
`rate limiter error` when the limiter wait failed), or `none` when
`CollectProject` succeeded. -/
def poolErrors (projects : List String) (attempt : String → Option GoError) :
    List (String × GoError) :=
  projects.dedup.filterMap (fun pid => (attempt pid).map (fun e => (pid, e)))

/-- Embedding of `CollectAll` (`internal/collector/pool.go:51`): after all
goroutines finish, return `failed to collect %d projects` when the error
map is non-empty, `nil` otherwise. -/
def CollectAll (projects : List String) (attempt : String → Option GoError) :
    Option GoError :=
  let errs := poolErrors projects attempt
  if errs.length > 0 then some (.collectFailed errs.length) else none

example :
    CollectAll ["A", "B", "C"]
      (fun pid => if pid == "B" then some (.plain "boom") else none) =
      some (.collectFailed 1) := by decide

example : CollectAll [] (fun _ => some (.plain "boom")) = none := by decide

/-! ## Concrete inputs used by witness and counterexample theorems -/

/-- A client whose first topic iterator fails with a transient error and
whose later (never created) iterators would succeed immediately. -/
def cxClient : Client :=
  { topicsIter := fun k => if k == 0 then [.error (.plain "timeout")] else []
    subsIter := fun _ => [] }

/-- A client whose topic iterator yields one item and then fails
transiently, and whose subscription iterator fails transiently on the
first attempt and succeeds on the second. -/
def wSubClient : Client :=
  { topicsIter := fun _ => [.ok "projects/p/topics/a", .error (.plain "timeout")]
    subsIter := fun k =>
      if k == 0 then [.error (.plain "timeout")]
      else [.ok ⟨"projects/p/subscriptions/s", "projects/p/topics/t"⟩] }

/-- A context that cancels during the very first backoff sleep. -/
def wCancelCtx : Ctx :=
  { cancelledDuringSleep := fun _ => true
    ctxErr := .contextCanceled
    limErr := none }

/-- A pool attempt oracle where only project `B` fails. -/
def wAttempt : String → Option GoError :=
  fun pid => if pid == "B" then some (.plain "boom") else none

/-- A transaction fault environment whose commit fails. -/
def wCommitFault : TxFault :=
  { beginErr := none, execProjectErr := none, execResourceErr := none
    commitErr := some (.plain "disk full") }

/-! ## Theorems -/

theorem firstNonEmpty_eq_head (l : List String) :
    firstNonEmpty l = ((l.filter (fun p => !(p == ""))).headD "") := by
  induction l with
  | nil => rfl
  | cons p ps ih =>
    by_cases h : p = ""
    · subst h; simpa [firstNonEmpty] using ih
    · simp [firstNonEmpty, h]

/-- Claim C8: for every input string, `extractResourceName` returns the
last non-empty `/`-separated segment (the empty string when there is
none), and in particular behaves as the spec's five examples state. -/
theorem extractResourceName_last_nonempty :
    (∀ s : String, extractResourceName s =
      ((splitOnChar '/' s).filter (fun p => !(p == ""))).getLastD "") ∧
    extractResourceName "projects/p/topics/t" = "t" ∧
    extractResourceName "" = "" ∧
    extractResourceName "/" = "" ∧
    extractResourceName "projects/p/topics/" = "topics" ∧
    extractResourceName "projects//topics/t" = "t" := by
  refine ⟨fun s => ?_, by decide, by decide, by decide, by decide, by decide⟩
  by_cases h : s = ""
  · subst h; decide
  · rw [extractResourceName, if_neg h, firstNonEmpty_eq_head, List.filter_reverse,
      List.headD_eq_head?, List.head?_reverse, List.getLastD_eq_getLast?]

/-- Claim C9: with an empty project list the bulk getters return every
record in the store; with a non-empty list they return exactly the union
of the listed projects' records. -/
theorem getAll_filter_semantics (db : DB) (ps : List String) :
    GetAllTopics db [] = db.topics ∧
    GetAllSubscriptions db [] = db.subs ∧
    (ps ≠ [] → ∀ r, r ∈ GetAllTopics db ps ↔ (r ∈ db.topics ∧ r.projectID ∈ ps)) ∧
    (ps ≠ [] → ∀ r, r ∈ GetAllSubscriptions db ps ↔ (r ∈ db.subs ∧ r.projectID ∈ ps)) := by
  refine ⟨rfl, rfl, fun h r => ?_, fun h r => ?_⟩ <;>
    simp [GetAllTopics, GetAllSubscriptions, List.isEmpty_iff, h, List.mem_filter]

theorem getAll_filter_semantics_witness :
    (["p"] ≠ ([] : List String)) ∧
    (∀ r, r ∈ GetAllTopics DB.empty ["p"] ↔ (r ∈ DB.empty.topics ∧ r.projectID ∈ ["p"])) :=
  ⟨by decide, (getAll_filter_semantics DB.empty ["p"]).2.2.1 (by decide)⟩

/-- Claim C4: an operation that fails with a retryable error on every
invocation (and whose context is never cancelled) is invoked exactly
3 times, and the returned error is the `max retries exceeded` error
wrapping the last underlying error. -/
theorem retry_budget (ctx : Ctx) (fn : Nat → Option GoError) (es : Nat → GoError)
    (hf : ∀ i, i < 3 → fn i = some (es i))
    (hr : ∀ i, i < 3 → isRetryable (some (es i)) = true)
    (hnc : ∀ i, ctx.cancelledDuringSleep i = false) :
    (retryWithBackoff ctx fn).calls = 3 ∧
    (retryWithBackoff ctx fn).result = some (.maxRetriesExceeded 3 (es 2)) := by
  have h0 := hf 0 (by omega)
  have h1 := hf 1 (by omega)
  have h2 := hf 2 (by omega)
  have r0 := hr 0 (by omega)
  have r1 := hr 1 (by omega)
  have r2 := hr 2 (by omega)
  constructor <;>
    simp [retryWithBackoff, maxRetries, retryAux, h0, h1, h2, r0, r1, r2, hnc]

theorem retry_budget_witness :
    (retryWithBackoff Ctx.live (fun _ => some (.plain "timeout"))).calls = 3 ∧
    (retryWithBackoff Ctx.live (fun _ => some (.plain "timeout"))).result =
      some (.maxRetriesExceeded 3 (.plain "timeout")) :=
  retry_budget Ctx.live (fun _ => some (.plain "timeout")) (fun _ => .plain "timeout")
    (fun _ _ => rfl) (fun _ _ => rfl) (fun _ => rfl)

/-- Claim C5: an operation whose first failure is non-retryable — a gRPC
permission-denied, unauthenticated, not-found or invalid-argument status,
a caller cancellation/deadline sentinel, an HTTP 400/401/403/404
`googleapi` error, or an unrecognized plain error with no transient
indicator in its message — is invoked exactly once and its error is
returned unchanged. -/
theorem retry_nonretryable_short_circuit (ctx : Ctx) (fn : Nat → Option GoError)
    (e : GoError)
    (h0 : fn 0 = some e)
    (hcls : (∃ d, e = .grpcStatus .PermissionDenied d) ∨
            (∃ d, e = .grpcStatus .Unauthenticated d) ∨
            (∃ d, e = .grpcStatus .NotFound d) ∨
            (∃ d, e = .grpcStatus .InvalidArgument d) ∨
            e = .contextCanceled ∨ e = .contextDeadlineExceeded ∨
            (∃ c m, e = .googleapi c m ∧ (c = 400 ∨ c = 401 ∨ c = 403 ∨ c = 404)) ∨
            (∃ m, e = .plain m ∧ hasTransientIndicator (strToLower m) = false)) :
    (retryWithBackoff ctx fn).result = some e ∧
    (retryWithBackoff ctx fn).calls = 1 := by
  have hnr : isRetryable (some e) = false := by
    rcases hcls with ⟨d, rfl⟩ | ⟨d, rfl⟩ | ⟨d, rfl⟩ | ⟨d, rfl⟩ | rfl | rfl |
      ⟨c, m, rfl, hc⟩ | ⟨m, rfl, hm⟩
    · rfl
    · rfl
    · rfl
    · rfl
    · rfl
    · rfl
    · rcases hc with rfl | rfl | rfl | rfl <;> rfl
    · exact hm
  constructor <;> simp [retryWithBackoff, maxRetries, retryAux, h0, hnr]

theorem retry_nonretryable_short_circuit_witness :
    (retryWithBackoff Ctx.live
      (fun _ => some (.googleapi 403 "permission denied"))).result =
        some (.googleapi 403 "permission denied") ∧
    (retryWithBackoff Ctx.live
      (fun _ => some (.googleapi 403 "permission denied"))).calls = 1 :=
  retry_nonretryable_short_circuit Ctx.live
    (fun _ => some (.googleapi 403 "permission denied"))
    (.googleapi 403 "permission denied") rfl
    (.inr (.inr (.inr (.inr (.inr (.inr (.inl ⟨403, "permission denied", rfl, by decide⟩)))))))

/-- Claim C6: when the context fires during the backoff sleep that follows
attempt `j` (every earlier attempt having failed retryably without
cancellation), `retryWithBackoff` returns the context's cancellation
error — never the `max retries exceeded` error — and the operation is not
invoked again after the cancellation (exactly `j + 1` invocations). -/
theorem retry_cancel_during_backoff (ctx : Ctx) (fn : Nat → Option GoError)
    (es : Nat → GoError) (j : Nat)
    (hj : j < 2)
    (hf : ∀ i, i ≤ j → fn i = some (es i))
    (hr : ∀ i, i ≤ j → isRetryable (some (es i)) = true)
    (hnc : ∀ i, i < j → ctx.cancelledDuringSleep i = false)
    (hc : ctx.cancelledDuringSleep j = true)
    (hcerr : ctx.ctxErr = .contextCanceled ∨ ctx.ctxErr = .contextDeadlineExceeded) :
    (retryWithBackoff ctx fn).result = some ctx.ctxErr ∧
    (retryWithBackoff ctx fn).calls = j + 1 ∧
    ∀ n last, (retryWithBackoff ctx fn).result ≠ some (.maxRetriesExceeded n last) := by
  have hres : (retryWithBackoff ctx fn).result = some ctx.ctxErr ∧
      (retryWithBackoff ctx fn).calls = j + 1 := by
    interval_cases j
    · have h0 := hf 0 (by omega)
      have r0 := hr 0 (by omega)
      constructor <;> simp [retryWithBackoff, maxRetries, retryAux, h0, r0, hc]
    · have h0 := hf 0 (by omega)
      have h1 := hf 1 (by omega)
      have r0 := hr 0 (by omega)
      have r1 := hr 1 (by omega)
      have n0 := hnc 0 (by omega)
      constructor <;>
        simp [retryWithBackoff, maxRetries, retryAux, h0, h1, r0, r1, n0, hc]
  refine ⟨hres.1, hres.2, fun n last => ?_⟩
  rw [hres.1]
  rcases hcerr with h | h <;> simp [h]

theorem retry_cancel_during_backoff_witness :
    (retryWithBackoff wCancelCtx (fun _ => some (.plain "timeout"))).result =
      some wCancelCtx.ctxErr ∧
    (retryWithBackoff wCancelCtx (fun _ => some (.plain "timeout"))).calls = 1 ∧
    ∀ n last, (retryWithBackoff wCancelCtx (fun _ => some (.plain "timeout"))).result ≠
      some (.maxRetriesExceeded n last) :=
  retry_cancel_during_backoff wCancelCtx (fun _ => some (.plain "timeout"))
    (fun _ => .plain "timeout") 0 (by omega) (fun _ _ => rfl) (fun _ _ => rfl)
    (fun i h => absurd h (by omega)) rfl (.inl rfl)

theorem poolErrors_keys (attempt : String → Option GoError) :
    ∀ l : List String,
      (l.filterMap (fun pid => (attempt pid).map (fun e => (pid, e)))).map Prod.fst =
        l.filter (fun pid => (attempt pid).isSome) := by
  intro l
  induction l with
  | nil => rfl
  | cons pid ps ih =>
    cases h : attempt pid <;>
      simp [List.filterMap_cons, List.filter_cons, h, ih]

/-- Claim C3: the pool records each failing project's error under exactly
its ID (and only failing projects appear, each at most once); the summary
error reports the count of failed projects and is returned iff the error
map is non-empty; an empty project list yields no error and an empty
map. -/
theorem collectAll_partial_failure (ps : List String)
    (attempt : String → Option GoError) :
    (∀ pid e, pid ∈ ps → attempt pid = some e → (pid, e) ∈ poolErrors ps attempt) ∧
    (∀ pid e, (pid, e) ∈ poolErrors ps attempt → pid ∈ ps ∧ attempt pid = some e) ∧
    ((poolErrors ps attempt).map Prod.fst).Nodup ∧
    (poolErrors ps attempt = [] → CollectAll ps attempt = none) ∧
    (poolErrors ps attempt ≠ [] →
      CollectAll ps attempt = some (.collectFailed (poolErrors ps attempt).length)) ∧
    (ps = [] → CollectAll ps attempt = none ∧ poolErrors ps attempt = []) := by
  refine ⟨fun pid e hmem hsome => ?_, fun pid e hmem => ?_, ?_, fun h => ?_, fun h => ?_,
    fun h => ?_⟩
  · simp only [poolErrors, List.mem_filterMap, List.mem_dedup]
    exact ⟨pid, hmem, by simp [hsome]⟩
  · simp only [poolErrors, List.mem_filterMap, List.mem_dedup] at hmem
    obtain ⟨pid', hmem', heq⟩ := hmem
    cases hatt : attempt pid' <;> simp [hatt] at heq
    obtain ⟨h1, h2⟩ := heq
    subst h1
    exact ⟨hmem', by rw [hatt, h2]⟩
  · rw [poolErrors, poolErrors_keys]
    exact ps.nodup_dedup.filter _
  · simp [CollectAll, h]
  · have : 0 < (poolErrors ps attempt).length := List.length_pos.mpr h
    simp only [CollectAll]
    rw [if_pos this]
  · subst h
    exact ⟨rfl, rfl⟩

theorem collectAll_partial_failure_witness :
    ("B", GoError.plain "boom") ∈ poolErrors ["A", "B", "C"] wAttempt ∧
    CollectAll ["A", "B", "C"] wAttempt = some (.collectFailed 1) :=
  ⟨(collectAll_partial_failure ["A", "B", "C"] wAttempt).1 "B" (.plain "boom")
      (by decide) (by decide),
   (collectAll_partial_failure ["A", "B", "C"] wAttempt).2.2.2.2.1 (by decide)⟩

theorem filter_key_of_filter_not {α : Type} (key : α → String) (s : String)
    (l : List α) :
    (l.filter (fun r => !(key r == s))).filter (fun r => key r == s) = [] := by
  induction l with
  | nil => rfl
  | cons a l ih =>
    by_cases h : key a = s
    · simp [List.filter_cons, h, ih]
    · simp [List.filter_cons, h, ih]

/-- Claim C1: saving two topics with the same full resource name in
sequence leaves exactly one `topics` row keyed by that name, carrying the
second topic's fields; from an empty store, `GetTopics` for the second
topic's project returns exactly that record. -/
theorem saveTopic_upsert_idempotent (t t' : Topic) (db : DB)
    (hfrn : t.fullResourceName = t'.fullResourceName) :
    ∃ db1 db2,
      SaveTopic TxFault.ok db t = .ok db1 ∧
      SaveTopic TxFault.ok db1 t' = .ok db2 ∧
      db2.topics.filter (fun r => r.fullResourceName == t'.fullResourceName) =
        [⟨db1.nextTopicId, t'.name, t'.projectID, t'.fullResourceName, t'.metadata,
          db1.now⟩] ∧
      (db = DB.empty →
        GetTopics db2 t'.projectID =
          [⟨2, t'.name, t'.projectID, t'.fullResourceName, t'.metadata, 1⟩]) := by
  refine ⟨_, _, rfl, rfl, ?_, ?_⟩
  · simp [upsertTopic, upsertProject, List.filter_append,
      filter_key_of_filter_not (fun r : TopicRow => r.fullResourceName)]
    exact fun a _ h1 h2 => absurd h1 h2
  · intro h
    subst h
    simp [GetTopics, SaveTopic, upsertTopic, upsertProject, DB.empty, hfrn]

theorem saveTopic_upsert_idempotent_witness :
    ∃ db1 db2,
      SaveTopic TxFault.ok DB.empty ⟨"t", "p", "projects/p/topics/t", "v1"⟩ = .ok db1 ∧
      SaveTopic TxFault.ok db1 ⟨"t", "p", "projects/p/topics/t", "v2"⟩ = .ok db2 ∧
      db2.topics.filter (fun r => r.fullResourceName == "projects/p/topics/t") =
        [⟨db1.nextTopicId, "t", "p", "projects/p/topics/t", "v2", db1.now⟩] ∧
      (DB.empty = DB.empty →
        GetTopics db2 "p" = [⟨2, "t", "p", "projects/p/topics/t", "v2", 1⟩]) :=
  saveTopic_upsert_idempotent ⟨"t", "p", "projects/p/topics/t", "v1"⟩
    ⟨"t", "p", "projects/p/topics/t", "v2"⟩ DB.empty rfl

/-- Claim C2: after a successful `SaveTopic`/`SaveSubscription` the saved
resource row and a `projects` row for its project ID both exist; a failed
save leaves the database exactly as it was (the transaction applies both
writes or neither). -/
theorem save_project_atomic (f : TxFault) (db : DB) (t : Topic) (s : Subscription) :
    ((SaveTopicRun f db t).1 = none →
      projectHas (SaveTopicRun f db t).2 t.projectID = true ∧
      topicSaved (SaveTopicRun f db t).2 t = true) ∧
    ((SaveTopicRun f db t).1 ≠ none → (SaveTopicRun f db t).2 = db) ∧
    ((SaveSubscriptionRun f db s).1 = none →
      projectHas (SaveSubscriptionRun f db s).2 s.projectID = true ∧
      subSaved (SaveSubscriptionRun f db s).2 s = true) ∧
    ((SaveSubscriptionRun f db s).1 ≠ none → (SaveSubscriptionRun f db s).2 = db) := by
  obtain ⟨fb, fp, fr, fc⟩ := f
  cases fb <;> cases fp <;> cases fr <;> cases fc <;>
    refine ⟨fun h => ?_, fun h => ?_, fun h => ?_, fun h => ?_⟩ <;>
    simp_all [SaveTopicRun, SaveTopic, SaveSubscriptionRun, SaveSubscription,
      projectHas, topicSaved, subSaved, upsertProject, upsertTopic, upsertSub]

theorem save_project_atomic_witness :
    projectHas
      (SaveTopicRun TxFault.ok DB.empty ⟨"t", "p", "projects/p/topics/t", "v1"⟩).2
      "p" = true ∧
    (SaveSubscriptionRun wCommitFault DB.empty
      ⟨"s", "p2", "projects/p/topics/t", "projects/p2/subscriptions/s", "v1"⟩).2 =
      DB.empty :=
  ⟨((save_project_atomic TxFault.ok DB.empty ⟨"t", "p", "projects/p/topics/t", "v1"⟩
      ⟨"s", "p2", "projects/p/topics/t", "projects/p2/subscriptions/s", "v1"⟩).1
      (by decide)).1,
   (save_project_atomic wCommitFault DB.empty ⟨"t", "p", "projects/p/topics/t", "v1"⟩
      ⟨"s", "p2", "projects/p/topics/t", "projects/p2/subscriptions/s", "v1"⟩).2.2.2
      (by decide)⟩

/-- Claim C10: when two topics share a full resource name but differ in
name or project, the second `SaveTopic` succeeds and replaces the first
row entirely — the only row left under that key carries the second
topic's fields, so when the projects differ the first project's listing no
longer shows the key — while the first project's `projects` record
remains; likewise for `SaveSubscription`. -/
theorem save_cross_key_replacement (t t' : Topic) (s s' : Subscription) (db : DB)
    (htf : t.fullResourceName = t'.fullResourceName)
    (_hdt : t.name ≠ t'.name ∨ t.projectID ≠ t'.projectID)
    (hsf : s.fullResourceName = s'.fullResourceName)
    (_hds : s.name ≠ s'.name ∨ s.projectID ≠ s'.projectID) :
    ∃ db1 db2 dc1 dc2,
      SaveTopic TxFault.ok db t = .ok db1 ∧
      SaveTopic TxFault.ok db1 t' = .ok db2 ∧
      (∀ r ∈ GetTopics db2 t.projectID, r.fullResourceName = t.fullResourceName →
        r.name = t'.name ∧ r.projectID = t'.projectID ∧ r.metadata = t'.metadata) ∧
      (t.projectID ≠ t'.projectID →
        ∀ r ∈ GetTopics db2 t.projectID, r.fullResourceName ≠ t.fullResourceName) ∧
      projectHas db2 t.projectID = true ∧
      SaveSubscription TxFault.ok db s = .ok dc1 ∧
      SaveSubscription TxFault.ok dc1 s' = .ok dc2 ∧
      (∀ r ∈ GetSubscriptions dc2 s.projectID,
        r.fullResourceName = s.fullResourceName →
        r.name = s'.name ∧ r.projectID = s'.projectID ∧ r.metadata = s'.metadata) ∧
      (s.projectID ≠ s'.projectID →
        ∀ r ∈ GetSubscriptions dc2 s.projectID,
          r.fullResourceName ≠ s.fullResourceName) ∧
      projectHas dc2 s.projectID = true := by
  refine ⟨_, _, _, _, rfl, rfl, ?_, ?_, ?_, rfl, rfl, ?_, ?_, ?_⟩
  · intro r hr hfr
    rw [GetTopics, List.mem_filter] at hr
    obtain ⟨hmem, _⟩ := hr
    simp only [upsertTopic, upsertProject, List.mem_append, List.mem_filter] at hmem
    rcases hmem with ⟨_, hkeep⟩ | hnew
    · rw [hfr, htf] at hkeep
      simp at hkeep
    · simp only [List.mem_singleton] at hnew
      subst hnew
      exact ⟨rfl, rfl, rfl⟩
  · intro hneq r hr hfr
    rw [GetTopics, List.mem_filter] at hr
    obtain ⟨hmem, hpid⟩ := hr
    simp only [beq_iff_eq] at hpid
    simp only [upsertTopic, upsertProject, List.mem_append, List.mem_filter] at hmem
    rcases hmem with ⟨_, hkeep⟩ | hnew
    · rw [hfr, htf] at hkeep
      simp at hkeep
    · simp only [List.mem_singleton] at hnew
      subst hnew
      exact hneq hpid.symm
  · by_cases hp : t.projectID = t'.projectID
    · simp [projectHas, upsertTopic, upsertProject, hp]
    · simp only [projectHas, List.any_eq_true]
      refine ⟨(t.projectID, db.now), ?_, by simp⟩
      simp [upsertTopic, upsertProject, List.mem_filter, List.mem_append, hp]
  · intro r hr hfr
    rw [GetSubscriptions, List.mem_filter] at hr
    obtain ⟨hmem, _⟩ := hr
    simp only [upsertSub, upsertProject, List.mem_append, List.mem_filter] at hmem
    rcases hmem with ⟨_, hkeep⟩ | hnew
    · rw [hfr, hsf] at hkeep
      simp at hkeep
    · simp only [List.mem_singleton] at hnew
      subst hnew
      exact ⟨rfl, rfl, rfl⟩
  · intro hneq r hr hfr
    rw [GetSubscriptions, List.mem_filter] at hr
    obtain ⟨hmem, hpid⟩ := hr
    simp only [beq_iff_eq] at hpid
    simp only [upsertSub, upsertProject, List.mem_append, List.mem_filter] at hmem
    rcases hmem with ⟨_, hkeep⟩ | hnew
    · rw [hfr, hsf] at hkeep
      simp at hkeep
    · simp only [List.mem_singleton] at hnew
      subst hnew
      exact hneq hpid.symm
  · by_cases hp : s.projectID = s'.projectID
    · simp [projectHas, upsertSub, upsertProject, hp]
    · simp only [projectHas, List.any_eq_true]
      refine ⟨(s.projectID, db.now), ?_, by simp⟩
      simp [upsertSub, upsertProject, List.mem_filter, List.mem_append, hp]

theorem save_cross_key_replacement_witness :
    ∃ db1 db2 dc1 dc2,
      SaveTopic TxFault.ok DB.empty ⟨"t", "p1", "projects/p1/topics/t", "v1"⟩ = .ok db1 ∧
      SaveTopic TxFault.ok db1 ⟨"t", "p2", "projects/p1/topics/t", "v2"⟩ = .ok db2 ∧
      (∀ r ∈ GetTopics db2 "p1", r.fullResourceName = "projects/p1/topics/t" →
        r.name = "t" ∧ r.projectID = "p2" ∧ r.metadata = "v2") ∧
      (("p1" : String) ≠ "p2" →
        ∀ r ∈ GetTopics db2 "p1", r.fullResourceName ≠ "projects/p1/topics/t") ∧
      projectHas db2 "p1" = true ∧
      SaveSubscription TxFault.ok DB.empty
        ⟨"s", "p1", "projects/p1/topics/t", "projects/p1/subscriptions/s", "v1"⟩ =
          .ok dc1 ∧
      SaveSubscription TxFault.ok dc1
        ⟨"s", "p2", "projects/p1/topics/t", "projects/p1/subscriptions/s", "v2"⟩ =
          .ok dc2 ∧
      (∀ r ∈ GetSubscriptions dc2 "p1",
        r.fullResourceName = "projects/p1/subscriptions/s" →
        r.name = "s" ∧ r.projectID = "p2" ∧ r.metadata = "v2") ∧
      (("p1" : String) ≠ "p2" →
        ∀ r ∈ GetSubscriptions dc2 "p1",
          r.fullResourceName ≠ "projects/p1/subscriptions/s") ∧
      projectHas dc2 "p1" = true :=
  save_cross_key_replacement
    ⟨"t", "p1", "projects/p1/topics/t", "v1"⟩
    ⟨"t", "p2", "projects/p1/topics/t", "v2"⟩
    ⟨"s", "p1", "projects/p1/topics/t", "projects/p1/subscriptions/s", "v1"⟩
    ⟨"s", "p2", "projects/p1/topics/t", "projects/p1/subscriptions/s", "v2"⟩
    DB.empty rfl (.inr (by decide)) rfl (.inr (by decide))

/-- Claim C7 counterexample: a client whose first (and only created) topic
iterator fails once with a transient `timeout` and whose next fresh
iterator would succeed immediately.  The code's `collectTopics` returns
the wrapped iteration error without any retry, while the retry-wrapped
topic listing the spec describes (`collectTopicsSpec`) succeeds on the
second, freshly created iterator — so topic listing is not wrapped by the
retry engine. -/
theorem collectTopics_no_retry_counterexample :
    (collectTopics Ctx.live cxClient "p" DB.empty).2 =
      some (.wrap "failed to iterate topics" (.plain "timeout")) ∧
    (collectTopicsSpec Ctx.live cxClient "p" DB.empty).result = none ∧
    (collectTopicsSpec Ctx.live cxClient "p" DB.empty).calls = 2 := by
  refine ⟨rfl, rfl, rfl⟩

/-- Claim C7 (amended): subscription listing is wrapped by the retry
engine at the collection level — a retryable failure of the first attempt
is followed by a second attempt that runs the freshly created iterator
`subsIter 1` from its beginning — while topic listing is not wrapped: the
first iterator failure is returned at once (wrapped as
`failed to iterate topics`), whatever steps remain. -/
theorem collect_listing_retry_semantics (ctx : Ctx) (client : Client) (pid : String) :
    (∀ pre e rest st, ctx.limErr = none → (∀ x ∈ pre, ∃ a, x = Except.ok a) →
      client.topicsIter 0 = pre ++ Except.error e :: rest →
      (collectTopics ctx client pid st).2 =
        some (.wrap "failed to iterate topics" e)) ∧
    (∀ st st0 st1 e, (∀ i, ctx.cancelledDuringSleep i = false) →
      collectSubscriptionsOnce ctx client pid 0 st = (st0, some e) →
      isRetryable (some e) = true →
      collectSubscriptionsOnce ctx client pid 1 st0 = (st1, none) →
      (collectSubscriptions ctx client pid st).result = none ∧
      (collectSubscriptions ctx client pid st).state = st1 ∧
      (collectSubscriptions ctx client pid st).calls = 2) := by
  constructor
  · intro pre e rest st hlim hpre hiter
    rw [collectTopics, hiter]
    clear hiter
    induction pre generalizing st with
    | nil => simp [runTopicsIter, hlim]
    | cons x xs ih =>
      obtain ⟨a, rfl⟩ := hpre x (List.mem_cons_self x xs)
      have step : runTopicsIter ctx pid ((Except.ok a :: xs) ++ Except.error e :: rest) st =
          runTopicsIter ctx pid (xs ++ Except.error e :: rest)
            (SaveTopicRun TxFault.ok st ⟨extractResourceName a, pid, a, "\x7b\x7d"⟩).2 := by
        rw [List.cons_append, runTopicsIter, hlim]
        rfl
      rw [step]
      exact ih _ (fun y hy => hpre y (List.mem_cons_of_mem _ hy))
  · intro st st0 st1 e hnc h0 hre h1
    refine ⟨?_, ?_, ?_⟩ <;>
      simp [collectSubscriptions, maxRetries, retryAux, h0, h1, hre, hnc 0]

theorem collect_listing_retry_semantics_witness :
    (collectTopics Ctx.live wSubClient "p" DB.empty).2 =
      some (.wrap "failed to iterate topics" (.plain "timeout")) ∧
    (collectSubscriptions Ctx.live wSubClient "p" DB.empty).result = none ∧
    (collectSubscriptions Ctx.live wSubClient "p" DB.empty).calls = 2 := by
  have T := collect_listing_retry_semantics Ctx.live wSubClient "p"
  have h2 := T.2 DB.empty
    (collectSubscriptionsOnce Ctx.live wSubClient "p" 0 DB.empty).1
    (collectSubscriptionsOnce Ctx.live wSubClient "p" 1
      (collectSubscriptionsOnce Ctx.live wSubClient "p" 0 DB.empty).1).1
    (.wrap "failed to iterate subscriptions" (.plain "timeout"))
    (fun _ => rfl) (by decide) (by decide) (by decide)
  exact ⟨T.1 [Except.ok "projects/p/topics/a"] (.plain "timeout") [] DB.empty rfl
      (by intro x hx; rw [List.mem_singleton] at hx; exact ⟨_, hx⟩) rfl,
    h2.1, h2.2.2⟩
